import Mathlib

/-
  Verification of the CoCzeFLA morphological-annotation pipeline.

  Shallow embedding of the core of the repository:
    * src/annot_util/replacement_rules.py  (rule tables, lookup tables)
    * src/annot_util/conversions.py        (chat_to_plain_text,
                                            generate_mor_pos_label, generate_mor_tag)
    * src/annotation.py                    (construct_mor_word, mor_line,
                                            process_line, annotate_filestream,
                                            _handle_args batch loop)
    * src/constants.py                     (category enums, orders, defaults)
    * src/annot_util/word_definitions.py   (lemma lists)

  Python regular expressions are embedded through a small executable
  backtracking regex engine (ordered alternation, greedy quantifiers,
  leftmost match, non-overlapping substitution), with every pattern of the
  source transcribed as a pattern tree.  Python strings are modelled as
  Lean strings (lists of unicode characters); fallible operations
  (IndexError on string indexing, KeyError on dict deletion, unbounded
  while loops) are modelled with Option / explicit error results and fuel.
-/

set_option maxRecDepth 8000

namespace CoCzeFLA

/-! ## Python string primitives -/

/-- Python `sep.join(items)`. -/
def joinSep (sep : String) : List String → String
  | [] => ""
  | [x] => x
  | x :: y :: xs => x ++ sep ++ joinSep sep (y :: xs)

/-- Drop the longest run of characters from `cs` at the head of a list. -/
def dropLeading (cs : List Char) : List Char → List Char
  | [] => []
  | c :: rest => if c ∈ cs then dropLeading cs rest else c :: rest

/-- Python `s.strip(chars)`: remove the given characters from both ends. -/
def pyStrip (cs : List Char) (s : String) : String :=
  String.mk (dropLeading cs ((dropLeading cs s.data.reverse).reverse))

/-- Association-list lookup (first match), modelling Python dict lookup
for the tables of the source (whose keys are pairwise distinct). -/
def alookup {κ α : Type} [DecidableEq κ] : List (κ × α) → κ → Option α
  | [], _ => none
  | (k, v) :: rest, key => if k = key then some v else alookup rest key

/-- Python `s.startswith(p)`. -/
def strStartsWith (s p : String) : Bool :=
  List.isPrefixOf p.data s.data

/-- Python `s.endswith(p)`. -/
def strEndsWith (s p : String) : Bool :=
  List.isPrefixOf p.data.reverse s.data.reverse

/-- Core of `strReplaceAll`, with fuel bounding the scan position. -/
def replChars (pat rpl : List Char) : Nat → List Char → List Char
  | 0, s => s
  | _ + 1, [] => []
  | fuel + 1, c :: rest =>
    if pat ≠ [] ∧ List.isPrefixOf pat (c :: rest) then
      rpl ++ replChars pat rpl fuel (List.drop (pat.length - 1) rest)
    else c :: replChars pat rpl fuel rest

/-- Python `s.replace(pat, rpl)`: replace all non-overlapping occurrences,
left to right. -/
def strReplaceAll (s pat rpl : String) : String :=
  String.mk (replChars pat.data rpl.data s.data.length s.data)

/-- Slice `s[a:b]` of a character list. -/
def slice (s : List Char) (a b : Nat) : List Char :=
  (s.drop a).take (b - a)

/-! ## Regex engine

A small backtracking matcher reproducing the semantics of the Python `re`
constructs used by the source: ordered alternation, greedy `*`/`+`/`?`/
`{m,n}`, character classes, `.` (not matching a newline), `\s`, anchors
`^` (string start) and `$` (string end, or just before a final newline),
numbered capturing groups and `\\n` backreferences in replacement
templates. -/

inductive RE where
  | eps
  | chr (c : Char)
  | dot
  | cls (cs : List Char) (rs : List (Char × Char))
  | ws
  | bol
  | eol
  | seq (a b : RE)
  | alt (a b : RE)
  | grp (n : Nat) (r : RE)
  | rep (lo : Nat) (hi : Option Nat) (r : RE)
deriving Repr

/-- Literal string pattern. -/
def RE.lit (s : String) : RE :=
  s.data.foldr (fun c acc => RE.seq (RE.chr c) acc) RE.eps

/-- Sequence of patterns. -/
def reSeq (l : List RE) : RE :=
  l.foldr RE.seq RE.eps

/-- Ordered alternation of a list of patterns (leftmost preferred). -/
def reAlt : List RE → RE
  | [] => RE.eps
  | [r] => r
  | r :: s :: rest => RE.alt r (reAlt (s :: rest))

def star (r : RE) : RE := RE.rep 0 none r
def plus (r : RE) : RE := RE.rep 1 none r
def opt (r : RE) : RE := RE.rep 0 (some 1) r

/-- Python `\s` (ASCII whitespace as used by the transcripts). -/
def isPyWs (c : Char) : Bool :=
  c = ' ' || c = '\t' || c = '\n' || c = '\r' || c = '\x0b' || c = '\x0c'

/-- Character-class membership: explicit characters plus ranges. -/
def inCls (c : Char) (cs : List Char) (rs : List (Char × Char)) : Bool :=
  cs.contains c || rs.any (fun p => decide (p.1 ≤ c) && decide (c ≤ p.2))

/-- CPS backtracking matcher.  `reM s fuel re pos caps k` tries to match
`re` at absolute position `pos` of `s`, calling `k` with the end position
and captures on success; `none` means failure (or fuel exhaustion, which
does not occur for the fuel values used below). -/
def reM (s : List Char) : Nat → RE → Nat → List (Nat × Nat × Nat) →
    (Nat → List (Nat × Nat × Nat) → Option (Nat × List (Nat × Nat × Nat))) →
    Option (Nat × List (Nat × Nat × Nat))
  | 0, _, _, _, _ => none
  | fuel + 1, re, pos, caps, k =>
    match re with
    | .eps => k pos caps
    | .chr c =>
      match s.get? pos with
      | some c2 => if c2 = c then k (pos + 1) caps else none
      | none => none
    | .dot =>
      match s.get? pos with
      | some c2 => if c2 = '\n' then none else k (pos + 1) caps
      | none => none
    | .cls cs rs =>
      match s.get? pos with
      | some c2 => if inCls c2 cs rs then k (pos + 1) caps else none
      | none => none
    | .ws =>
      match s.get? pos with
      | some c2 => if isPyWs c2 then k (pos + 1) caps else none
      | none => none
    | .bol => if pos = 0 then k pos caps else none
    | .eol =>
      if pos = s.length then k pos caps
      else if pos + 1 = s.length ∧ s.get? pos = some '\n' then k pos caps
      else none
    | .seq a b => reM s fuel a pos caps (fun p c => reM s fuel b p c k)
    | .alt a b =>
      match reM s fuel a pos caps k with
      | some res => some res
      | none => reM s fuel b pos caps k
    | .grp n r => reM s fuel r pos caps (fun p c => k p ((n, pos, p) :: c))
    | .rep lo hi r =>
      match hi with
      | some 0 => k pos caps
      | _ =>
        match lo with
        | l + 1 =>
          reM s fuel r pos caps (fun p c =>
            reM s fuel (.rep l (hi.map (fun h => h - 1)) r) p c k)
        | 0 =>
          match reM s fuel r pos caps (fun p c =>
            if p = pos then none
            else reM s fuel (.rep 0 (hi.map (fun h => h - 1)) r) p c k) with
          | some res => some res
          | none => k pos caps

/-- Fuel sufficient for the patterns of the source on a string of length n. -/
def matchFuel (s : List Char) : Nat := 4 * s.length + 200

/-- Try to match `re` at successive start positions (leftmost match). -/
def reFindAux (re : RE) (s : List Char) : Nat → Nat →
    Option (Nat × Nat × List (Nat × Nat × Nat))
  | 0, _ => none
  | fuel + 1, pos =>
    match reM s (matchFuel s) re pos [] (fun p c => some (p, c)) with
    | some (e, caps) => some (pos, e, caps)
    | none => if pos < s.length then reFindAux re s fuel (pos + 1) else none

/-- Python `re.search(re, s) is not None`. -/
def reSearch (re : RE) (s : List Char) : Bool :=
  (reFindAux re s (s.length + 1) 0).isSome

/-- Replacement-template item: literal text or a group backreference. -/
inductive RItem where
  | lit (s : String)
  | ref (n : Nat)
deriving Repr

/-- First-set capture lookup (later bindings of a group shadow earlier ones). -/
def getCap (caps : List (Nat × Nat × Nat)) (n : Nat) : Option (Nat × Nat) :=
  match caps with
  | [] => none
  | (m, a, b) :: rest => if m = n then some (a, b) else getCap rest n

/-- Instantiate a replacement template. -/
def applyRepl (s : List Char) (caps : List (Nat × Nat × Nat)) :
    List RItem → List Char
  | [] => []
  | RItem.lit l :: rest => l.data ++ applyRepl s caps rest
  | RItem.ref n :: rest =>
    (match getCap caps n with
     | some (a, b) => slice s a b
     | none => []) ++ applyRepl s caps rest

/-- Core of `re.sub`: scan left to right, replacing non-overlapping
leftmost matches. -/
def reSubAux (re : RE) (rpl : List RItem) (s : List Char) : Nat → Nat → List Char
  | 0, pos => s.drop pos
  | fuel + 1, pos =>
    match reM s (matchFuel s) re pos [] (fun p c => some (p, c)) with
    | some (e, caps) =>
      if e = pos then
        match s.get? pos with
        | some c => applyRepl s caps rpl ++ (c :: reSubAux re rpl s fuel (pos + 1))
        | none => applyRepl s caps rpl
      else applyRepl s caps rpl ++ reSubAux re rpl s fuel e
    | none =>
      match s.get? pos with
      | some c => c :: reSubAux re rpl s fuel (pos + 1)
      | none => []

/-- Python `re.sub(re, rpl, s)`. -/
def reSub (re : RE) (rpl : List RItem) (s : List Char) : List Char :=
  reSubAux re rpl s (s.length + 1) 0

/-! ## Rule table (src/annot_util/replacement_rules.py) -/

/-- Placeholder strings (src/constants.py). -/
def PLACEHOLDER_INTERJECTION : String := "bacashoogacit"
def PLACEHOLDER_NEOLOGISM : String := "bacashoogachi"
def PLACEHOLDER_FOREIGN : String := "bacashoogaciz"

/-- The accented letters listed explicitly inside every letter class of
the source patterns. -/
def czLetterChars : List Char :=
  "áäąčćďéěëęíłňńóöřšśťůúüýžźżÁÄĄČĆĎÉĚËĘÍŁŇŃÓÖŘŠŚŤŮÚÜÝŽŹŻ".data

/-- The ASCII ranges `a-zA-Z` of those classes. -/
def azRanges : List (Char × Char) := [('a', 'z'), ('A', 'Z')]

/-- Class `[a-zA-Z<accented letters>]`. -/
def letterCls : RE := RE.cls czLetterChars azRanges

/-- Same class with extra leading characters, e.g. `[ &+,“”_a-zA-Z...]`. -/
def letterClsExtra (extra : List Char) : RE :=
  RE.cls (extra ++ czLetterChars) azRanges

/-- The apostrophe character appearing in one class of the source. -/
def aposChar : Char := Char.ofNat 39

/-- CHAT_TO_PLAIN_TEXT: the ordered (pattern, replacement) rule list,
transcribed rule for rule from src/annot_util/replacement_rules.py. -/
def CHAT_TO_PLAIN_TEXT : List (RE × List RItem) := [
  -- (r"\*[A-Z]{3}:\t", "")
  (reSeq [RE.chr '*', RE.rep 3 (some 3) (RE.cls [] [('A', 'Z')]),
          RE.chr ':', RE.chr '\t'], []),
  -- (r"@i|@z:ip|@z:ia|@z:in", PLACEHOLDER_INTERJECTION)
  (reAlt [RE.lit "@i", RE.lit "@z:ip", RE.lit "@z:ia", RE.lit "@z:in"],
   [RItem.lit PLACEHOLDER_INTERJECTION]),
  -- (r"@c|@n", PLACEHOLDER_NEOLOGISM)
  (reAlt [RE.lit "@c", RE.lit "@n"], [RItem.lit PLACEHOLDER_NEOLOGISM]),
  -- (r"@z:f", PLACEHOLDER_FOREIGN)
  (RE.lit "@z:f", [RItem.lit PLACEHOLDER_FOREIGN]),
  -- (r"@z:m", r"")
  (RE.lit "@z:m", []),
  -- (r"([letters]):", r"\1")
  (reSeq [RE.grp 1 letterCls, RE.chr ':'], [RItem.ref 1]),
  -- (r"\^", r"")
  (RE.chr '^', []),
  -- (r"((?:[ <]|^)[letters]+)-(li[ >])", r"\1 \2")
  (reSeq [RE.grp 1 (RE.seq (RE.alt (RE.cls [' ', '<'] []) RE.bol)
                           (plus letterCls)),
          RE.chr '-',
          RE.grp 2 (RE.seq (RE.lit "li") (RE.cls [' ', '>'] []))],
   [RItem.ref 1, RItem.lit " ", RItem.ref 2]),
  -- (r"((?:[ <]|^)[letters]+)-([letters]+[ >])", r"\1\2")
  (reSeq [RE.grp 1 (RE.seq (RE.alt (RE.cls [' ', '<'] []) RE.bol)
                           (plus letterCls)),
          RE.chr '-',
          RE.grp 2 (RE.seq (plus letterCls) (RE.cls [' ', '>'] []))],
   [RItem.ref 1, RItem.ref 2]),
  -- (r"<[ &+,'“”_letters]*> \[(\/{1,2}|=! (básnička|zpěv))\]", "")
  (reSeq [RE.chr '<',
          star (letterClsExtra [' ', '&', '+', ',', aposChar, '“', '”', '_']),
          RE.chr '>', RE.chr ' ', RE.chr '[',
          RE.grp 1 (RE.alt (RE.rep 1 (some 2) (RE.chr '/'))
                           (RE.seq (RE.lit "=! ")
                                   (RE.grp 2 (RE.alt (RE.lit "básnička")
                                                     (RE.lit "zpěv"))))),
          RE.chr ']'], []),
  -- (r"&=[_:letters]+", "")
  (RE.seq (RE.lit "&=") (plus (letterClsExtra ['_', ':'])), []),
  -- (r"(&\+|&=0)[_letters]+", "")
  (RE.seq (RE.grp 1 (RE.alt (RE.lit "&+") (RE.lit "&=0")))
          (plus (letterClsExtra ['_'])), []),
  -- (r"<([ &+,“”_letters]*)> \[(x [0-9]+ ?|\?)\]", r"\1")
  (reSeq [RE.chr '<',
          RE.grp 1 (star (letterClsExtra [' ', '&', '+', ',', '“', '”', '_'])),
          RE.chr '>', RE.chr ' ', RE.chr '[',
          RE.grp 2 (RE.alt (reSeq [RE.lit "x ", plus (RE.cls [] [('0', '9')]),
                                   opt (RE.chr ' ')])
                           (RE.chr '?')),
          RE.chr ']'], [RItem.ref 1]),
  -- (r"[letters]+ \[:([ letters]+)\]", r"\1")
  (reSeq [plus letterCls, RE.chr ' ', RE.lit "[:",
          RE.grp 1 (plus (letterClsExtra [' '])), RE.chr ']'],
   [RItem.ref 1]),
  -- (r"_", r"")
  (RE.chr '_', []),
  -- (r"\(.\)", r"")
  (reSeq [RE.chr '(', RE.dot, RE.chr ')'], []),
  -- (r"\[\*\]", r"")
  (RE.lit "[*]", []),
  -- (r"xxx", r"")
  (RE.lit "xxx", []),
  -- (r"\+<", "")
  (RE.lit "+<", []),
  -- (r"[Nn]ee", r"ne")
  (RE.seq (RE.cls ['N', 'n'] []) (RE.lit "ee"), [RItem.lit "ne"]),
  -- (r"\+ \. \. \.", r"+...")
  (RE.lit "+ . . .", [RItem.lit "+..."]),
  -- (r"\+\/ \.", r"+/.")
  (RE.lit "+/ .", [RItem.lit "+/."]),
  -- (r" \[= ! ", r" [=! ")
  (RE.lit " [= ! ", [RItem.lit " [=! "]),
  -- (r"\s{1,}", r" ")
  (RE.rep 1 none RE.ws, [RItem.lit " "]),
  -- (r"(, )+(\.|\?|\!|\+\.\.\.|\+\/\.|,)", r"\2")
  (RE.seq (RE.rep 1 none (RE.grp 1 (RE.lit ", ")))
          (RE.grp 2 (reAlt [RE.lit ".", RE.lit "?", RE.lit "!",
                            RE.lit "+...", RE.lit "+/.", RE.lit ","])),
   [RItem.ref 2]),
  -- (r"^\s+,", r"")
  (reSeq [RE.bol, plus RE.ws, RE.chr ','], []),
  -- (r"^\s+", r"")
  (RE.seq RE.bol (plus RE.ws), []),
  -- (r"\s+$", r"")
  (RE.seq (plus RE.ws) RE.eol, [])
]

/-- PLAIN_TEXT_CRITERIA: the plain-text acceptance pattern
`^[ ,“”0a-zA-Z<accented>]*(\.|\?|\!|\+\.\.\.|\+\/\.)$`. -/
def PLAIN_TEXT_CRITERIA : RE :=
  reSeq [RE.bol,
         star (RE.cls ([' ', ',', '“', '”', '0'] ++ czLetterChars) azRanges),
         RE.grp 1 (reAlt [RE.lit ".", RE.lit "?", RE.lit "!",
                          RE.lit "+...", RE.lit "+/."]),
         RE.eol]

/-- Lines not to be annotated (SKIP_LINES). -/
def SKIP_LINES : List String := [".", "0 .", "+/.", "+...", "!", "?"]

/-! ## chat_to_plain_text (src/annot_util/conversions.py) -/

/-- One pass of the rule table over `result` (the inner `for` loop of
`chat_to_plain_text`), returning the new `result` and the recomputed
`needs_review`.  When the intermediate string becomes empty the pass
short-circuits; the source then reassigns `result` before computing
`needs_review`, so `needs_review` comes out `false` in that case. -/
def rulesPassGo : List (RE × List RItem) → List Char → List Char →
    List Char × Bool
  | [], res, ri => (ri, decide (ri ≠ res))
  | rule :: rest, res, ri =>
    if ri = [] then (ri, false)
    else rulesPassGo rest res (reSub rule.1 rule.2 ri)

/-- One full pass of CHAT_TO_PLAIN_TEXT. -/
def rulesPass (res : List Char) : List Char × Bool :=
  rulesPassGo CHAT_TO_PLAIN_TEXT res res

/-- Result of `chat_to_plain_text`: `noneRes` models the Python `None`
return, `convError` models `ChatToPlainTextConversionError` (carrying the
original line and the last intermediate result), `fuelOut` marks fuel
exhaustion of the modelled unbounded `while` loop. -/
inductive ChatResult where
  | noneRes
  | ok (s : String)
  | convError (chatLine result : String)
  | fuelOut
deriving DecidableEq, Repr

/-- The `while` loop of `chat_to_plain_text`. -/
def chatLoopGo : Nat → List Char → List Char → Bool → Bool → ChatResult
  | 0, _, _, _, _ => ChatResult.fuelOut
  | fuel + 1, chatLine, result, firstIteration, needsReview =>
    if firstIteration ∨ (result ≠ [] ∧ reSearch PLAIN_TEXT_CRITERIA result = false) then
      if needsReview = false then
        ChatResult.convError (String.mk chatLine) (String.mk result)
      else
        let p := rulesPass result
        chatLoopGo fuel chatLine p.1 false p.2
    else ChatResult.ok (String.mk result)

/-- chat_to_plain_text: transform a CHAT line to plain text.  Returns
`noneRes` for the empty line, otherwise runs the rule-application loop. -/
def chat_to_plain_text (fuel : Nat) (chat_line : String) : ChatResult :=
  if chat_line = "" then ChatResult.noneRes
  else chatLoopGo fuel chat_line.data chat_line.data true true

/-! ## Constants (src/constants.py) -/

/-- Token flags (enum `tflag`). -/
inductive tflag where
  | interjection
  | neologism
  | foreign
  | quotation_beginning
deriving DecidableEq, Repr

/-- Grammatical and lexical categories (enum `cats`); `case` is a Lean
keyword so that constructor is written `case_`. -/
inductive cats where
  | case_
  | person
  | number
  | mood
  | tense
  | voice
  | aspect
  | gender
  | negation
  | comp_deg
  | form_type
deriving DecidableEq, Repr

def GRAMMATICAL_CATEGORY_ORDER : List cats :=
  [cats.form_type, cats.case_, cats.person, cats.number, cats.mood,
   cats.tense, cats.voice, cats.gender, cats.aspect]

def LEXICAL_CATEGORY_ORDER : List cats := [cats.comp_deg, cats.negation]

/-- Default values for empty grammatical categories (note: no entry for
`negation`, `comp_deg` or `form_type`). -/
def EMPTY_GRAM_CAT_DEFAULT : List (cats × String) :=
  [(cats.case_, "x_pad"), (cats.person, "x_osoba"), (cats.number, "x_cislo"),
   (cats.mood, "x_zpusob"), (cats.tense, "x_cas"),
   (cats.voice, "x_slovesny_rod"), (cats.aspect, "x_vid"),
   (cats.gender, "x_jmenny_rod")]

/-! ## Python dict model for category dictionaries -/

/-- A Python dict keyed by `cats`, as an insertion-ordered association
list with distinct keys. -/
abbrev PyDict := List (cats × String)

/-- Dict lookup `d[k]` (as an Option). -/
def dget (d : PyDict) (k : cats) : Option String := alookup d k

/-- Dict assignment `d[k] = v`: replace in place or append. -/
def dset (d : PyDict) (k : cats) (v : String) : PyDict :=
  if (dget d k).isSome then
    d.map (fun kv => if kv.1 = k then (k, v) else kv)
  else d ++ [(k, v)]

/-- Dict deletion `del d[k]`: `none` models the `KeyError` raised by
Python when the key is absent. -/
def ddel (d : PyDict) (k : cats) : Option PyDict :=
  if (dget d k).isSome then some (d.filter (fun kv => kv.1 ≠ k)) else none

/-- _require_cats: add default entries for the required categories that
are missing; `none` models the `KeyError` of the default-table lookup for
a category without a default (never reached by the source's calls). -/
def require_cats (categories : PyDict) : List cats → Option PyDict
  | [] => some categories
  | req :: rest => do
    let categories ←
      if (dget categories req).isSome then pure categories
      else do
        let v ← alookup EMPTY_GRAM_CAT_DEFAULT req
        pure (dset categories req v)
    require_cats categories rest

/-! ## Word lists (src/annot_util/word_definitions.py) -/

def PLURAL_INVARIABLE_NOUNS : List String :=
  ["boby", "brýle", "brejle", "dveře", "dvířka", "jesličky", "hodiny",
   "hodinky", "kalhoty", "kalhotky", "kamna", "korále", "kraťasy",
   "narozeniny", "nůžky", "peníze", "plavky", "slipy", "šaty", "šatičky",
   "vrata", "záda", "hory", "halušky", "housle", "housličky", "játra",
   "kleště", "kraťásky", "legíny", "legínky", "mluvidla", "narozky",
   "neštovice", "nosítka", "noviny", "nudle", "nůžtičky", "plíce",
   "povidla", "saně", "sáně", "sáňky", "spalničky", "spodky", "štípačky",
   "svršky", "šunkofleky", "štafle", "vnitřnosti", "tepláky", "zarděnky"]

def PLURAL_INVARIABLE_PROPER_NOUNS : List String :=
  ["Prčice", "Velikonoce", "Vánoce", "Vary", "Vršovice", "Krkonoše"]

def MODAL_VERBS : List String := ["moci", "muset", "smět"]

def PRONOMINAL_ADVERBS : List String :=
  ["dokdy", "dokud", "jak", "jakkoli", "jakkoliv", "jakpak", "jaksi",
   "kam", "kamkoli", "kamkoliv", "kampak", "kamsi", "kde", "kdekoli",
   "kdekoliv", "kdepak", "kdesi", "kdy", "kdykoli", "kdykoliv", "kdypak",
   "kdysi", "kudy", "kudykoli", "kudykoliv", "kudypak", "kudysi", "nač",
   "načež", "nakdy", "nakolik", "nato", "navždy", "nějak", "někam",
   "někde", "někdy", "nyní", "odevšud", "odevšad", "odkdy", "odkdykoli",
   "odkdykoliv", "odkdypak", "odkdysi", "odkud", "odkudkoli",
   "odkudkoliv", "odkudpak", "odkudsi", "odsud", "odtamtud", "odtud",
   "onde", "onehdy", "pak", "pokud", "poté", "proč", "pročež", "sem",
   "semka", "semhle", "tady", "tadyhle", "tadyhletudy", "tadytudy",
   "takhle", "takto", "tam", "tamhle", "támhle", "tamtudy", "tamhletudy",
   "teď", "teďka", "tehdy", "tenkrát", "tenkráte", "tolik", "tolikrát",
   "tudy", "tudyhle", "tuhle", "tuhletudy", "všude", "vždy", "začež",
   "zde"]

def NEGATIVE_PRONOMINAL_ADVERBS : List String :=
  ["nikde", "nikam", "nikudy", "nikdy", "nijak", "nikterak", "odnikud"]

def POSS_PRONOUN_F_3SG : List String :=
  ["její", "jejího", "jejímu", "jejím", "jejích", "jejími", "jejíma"]

def POSS_PRONOUN_M_N_3SG : List String := ["jeho"]

def POSS_PRONOUN_3PL : List String := ["jejich"]

/-! ## Override tables (src/annot_util/replacement_rules.py) -/

/-- MOR_WORDS_OVERRIDES: word form → full hand-specified MOR word. -/
def MOR_WORDS_OVERRIDES : List (String × String) :=
  [("mami", "n|máma-5&SG&F"),
   ("koukej", "v|koukat-2&SG&imp&akt&impf"),
   ("zzz", "x|zzz"),
   ("rád", "adj:short|rád-1&SG&M"),
   ("ráda", "adj:short|rád-1&SG&F"),
   ("rádo", "adj:short|rád-1&SG&N"),
   ("rádi", "adj:short|rád-1&PL&M"),
   ("rády", "adj:short|rád-1&PL&F"),
   ("se", "pro:refl|se-4&SG"),
   ("si", "pro:refl|se-3&SG"),
   ("jejichž", "pro:rel:poss|jejichž-x_pad&x_cislo&x_jmenny_rod"),
   ("bych", "v:aux|být-1&SG&cond&akt&impf"),
   ("bysem", "v:aux|být-1&SG&cond&akt&impf"),
   ("bys", "v:aux|být-2&SG&cond&akt&impf"),
   ("bysi", "v:aux|být-2&SG&cond&akt&impf"),
   ("by", "v:aux|být-3&x_cislo&cond&akt&impf"),
   ("bychom", "v:aux|být-1&PL&cond&akt&impf"),
   ("bysme", "v:aux|být-1&PL&cond&akt&impf"),
   ("byste", "v:aux|být-2&PL&cond&akt&impf"),
   ("abych", "conj:sub_v:aux|aby_být-1&SG&cond&akt&impf"),
   ("abysem", "conj:sub_v:aux|aby_být-1&SG&cond&akt&impf"),
   ("abys", "conj:sub_v:aux|aby_být-2&SG&cond&akt&impf"),
   ("abysi", "conj:sub_v:aux|aby_být-2&SG&cond&akt&impf"),
   ("aby", "conj:sub_v:aux|aby_být-3&x_cislo&cond&akt&impf"),
   ("abychom", "conj:sub_v:aux|aby_být-1&PL&cond&akt&impf"),
   ("abyste", "conj:sub_v:aux|aby_být-2&PL&cond&akt&impf"),
   ("abysme", "conj:sub_v:aux|aby_být-1&PL&cond&akt&impf"),
   ("kdybych", "conj:sub_v:aux|kdyby_být-1&SG&cond&akt&impf"),
   ("kdybysem", "conj:sub_v:aux|kdyby_být-1&SG&cond&akt&impf"),
   ("kdybys", "conj:sub_v:aux|kdyby_být-2&SG&cond&akt&impf"),
   ("kdybysi", "conj:sub_v:aux|kdyby_být-2&SG&cond&akt&impf"),
   ("kdyby", "conj:sub_v:aux|kdyby_být-3&x_cislo&cond&akt&impf"),
   ("kdybychom", "conj:sub_v:aux|kdyby_být-1&PL&cond&akt&impf"),
   ("kdybysme", "conj:sub_v:aux|kdyby_být-1&PL&cond&akt&impf"),
   ("kdybyste", "conj:sub_v:aux|kdyby_být-2&PL&cond&akt&impf"),
   ("ses", "pro:refl_v:aux|se_být-4&SG_2&SG&ind&pres&akt&impf"),
   ("sis", "pro:refl_v:aux|se_být-3&SG_2&SG&ind&pres&akt&impf"),
   ("zač", "prep_pro:int|za_co-4&SG&N"),
   ("nač", "prep_pro:int|na_co-4&SG&N"),
   ("oč", "prep_pro:int|o_co-4&SG&N"),
   ("li", "part|li"),
   ("emem", "int|emem"),
   ("hají", "int|hají")]

/-- _ADJ_ADV_COMPDEG_LEMMA_OVERRIDES: comparative/superlative forms
mapped to their positive-degree lemma. -/
def ADJ_ADV_COMPDEG_LEMMA_OVERRIDES : List (String × String) :=
  (["lepší", "nejlepší"].map (fun s => (s, "dobrý")))
  ++ (["horší", "nejhorší"].map (fun s => (s, "špatný")))
  ++ (["delší", "nejdelší"].map (fun s => (s, "dlouhý")))
  ++ (["menší", "nejmenší"].map (fun s => (s, "malý")))
  ++ (["větší", "největší"].map (fun s => (s, "velký")))
  ++ (["lépe", "líp", "nejlépe", "nejlíp"].map (fun s => (s, "dobře")))
  ++ (["hůře", "hůř", "nejhůře", "nejhůř"].map (fun s => (s, "špatně")))
  ++ (["dříve", "dřív", "dřívěji", "dřívějc", "nejdříve", "nejdřív",
       "nejdřívěji", "nejdřívějc"].map (fun s => (s, "brzy")))
  ++ (["déle", "dýl", "nejdéle", "nejdýl"].map (fun s => (s, "dlouho")))
  ++ (["výše", "výš", "vejš", "nejvýše", "nejvýš", "nejvejš"].map
       (fun s => (s, "vysoko")))
  ++ (["méně", "míň", "nejméně", "nejmíň"].map (fun s => (s, "málo")))
  ++ (["více", "víc", "nejvíce", "nejvíc"].map (fun s => (s, "hodně")))
  ++ (["tíž", "tíže", "tížeji", "nejtíž", "nejtíže", " nejtížeji"].map
       (fun s => (s, "těžce")))
  ++ (["snáz", "snáze", "snázeji", "snadněji", "snadnějc", "nejsnáz",
       "nejsnáze", "nejsnadněji", "nejsnadnějc"].map (fun s => (s, "snadno")))
  ++ (["hloub", "hlouběji", "hloubějc", "nejhloub", "nejhlouběji",
       "nejhloubějc"].map (fun s => (s, "hluboko")))
  ++ (["šíře", "šíř", "šířeji", "šířejc", "nejšíře", "nejšíř", "nejšířeji",
       "nejšířejc"].map (fun s => (s, "široko")))
  ++ (["úže", "úžeji", "úžejc", "nejúže", "nejúžeji", "nejúžejc"].map
       (fun s => (s, "úzce")))

/-- MOR_MLEMMAS_LEMMA_OVERRIDES: MorfFlex lemma → target lemma. -/
def MOR_MLEMMAS_LEMMA_OVERRIDES : List (String × String) :=
  [("lidé", "člověk")] ++ ADJ_ADV_COMPDEG_LEMMA_OVERRIDES

/-- MOR_WORDS_LEMMA_OVERRIDES: word form → target lemma (first element of
the word list the form belongs to), plus the fixed entry for `zem`. -/
def MOR_WORDS_LEMMA_OVERRIDES : List (String × String) :=
  (POSS_PRONOUN_3PL.map (fun w => (w, "jejich")))
  ++ (POSS_PRONOUN_M_N_3SG.map (fun w => (w, "jeho")))
  ++ (POSS_PRONOUN_F_3SG.map (fun w => (w, "její")))
  ++ [("zem", "zem")]

/-- The per-word-form sub-table of MOR_POS_OVERRIDES for the
copula/auxiliary lemma, with the default entry under key `_`. -/
def mor_pos_overrides_byt : List (String × String) :=
  [("je", "v:cop"), ("jsou", "v:cop"), ("seš", "v:cop"),
   ("nejsem", "v:cop"), ("nejsi", "v:cop"), ("není", "v:cop"),
   ("nejsme", "v:cop"), ("nejste", "v:cop"), ("nejsou", "v:cop"),
   ("buď", "v:cop"), ("buďme", "v:cop"), ("buďte", "v:cop"),
   ("nebuď", "v:cop"), ("nebuďme", "v:cop"), ("nebuďte", "v:cop"),
   ("být", "v:cop"), ("nebýt", "v:cop"), ("byl", "v:cop"),
   ("byla", "v:cop"), ("bylo", "v:cop"), ("byli", "v:cop"),
   ("byly", "v:cop"), ("nebyl", "v:cop"), ("nebyla", "v:cop"),
   ("nebylo", "v:cop"), ("nebyli", "v:cop"), ("nebyly", "v:cop"),
   ("_", "v:x")]

/-- MOR_POS_OVERRIDES: lemma → (word form → POS label) dictionary, where
word form `_` denotes the default value.  The key sets of the merged
dictionaries are pairwise disjoint, so the Python `|` merge is modelled
by concatenation. -/
def MOR_POS_OVERRIDES : List (String × List (String × String)) :=
  (PRONOMINAL_ADVERBS.map (fun l => (l, [("_", "adv:pro")])))
  ++ (NEGATIVE_PRONOMINAL_ADVERBS.map (fun l => (l, [("_", "adv:pro:neg")])))
  ++ ((PLURAL_INVARIABLE_NOUNS ++ PLURAL_INVARIABLE_PROPER_NOUNS).map
       (fun l => (l, [("_", "n:pt")])))
  ++ (MODAL_VERBS.map (fun l => (l, [("_", "v:mod")])))
  ++ [("každý", [("_", "pro:indef")]),
      ("svůj", [("_", "pro:refl:poss")]),
      ("čí", [("_", "pro:int:poss")]),
      ("být", mor_pos_overrides_byt),
      ("chtít", [("_", "v:x")]),
      ("mít", [("_", "v:x")])]

/-- The module-level integrity check of replacement_rules.py: every lemma
of MOR_POS_OVERRIDES must map to a dictionary containing the default key
`_`, else a ValueError is raised at load time.  `true` means the check
passes. -/
def mor_pos_overrides_check (d : List (String × List (String × String))) : Bool :=
  d.all (fun kv => (alookup kv.2 "_").isSome)

/-! ## Tokens -/

/-- A MorphoDiTa token: surface word form, lemma, positional tag. -/
structure Token where
  word : String
  «lemma» : String
  tag : String
deriving DecidableEq, Repr

/-- FlaggedToken: a token with flags associated. -/
structure FlaggedToken extends Token where
  flags : List tflag
deriving DecidableEq, Repr

/-- Python string indexing `s[i]` (an IndexError is `none`). -/
def pyCharAt (s : String) (i : Nat) : Option Char :=
  s.data.get? i

/-- Case-mapping pairs for the accented letters of the transcripts. -/
def czAccLower : List Char := "áäąčćďéěëęíłňńóöřšśťůúüýžźż".data

def czAccUpper : List Char := "ÁÄĄČĆĎÉĚËĘÍŁŇŃÓÖŘŠŚŤŮÚÜÝŽŹŻ".data

def chUp (c : Char) : Char :=
  if 'a' ≤ c ∧ c ≤ 'z' then Char.ofNat (c.toNat - 32)
  else (alookup (czAccLower.zip czAccUpper) c).getD c

def chDown (c : Char) : Char :=
  if 'A' ≤ c ∧ c ≤ 'Z' then Char.ofNat (c.toNat + 32)
  else (alookup (czAccUpper.zip czAccLower) c).getD c

/-- Python `s.capitalize()`: first character uppercased, rest lowercased
(restricted to ASCII plus the accented letters of the transcripts). -/
def pyCapitalize (s : String) : String :=
  match s.data with
  | [] => ""
  | c :: rest => String.mk (chUp c :: rest.map chDown)

/-! ## generate_mor_pos_label (src/annot_util/conversions.py) -/

/-- What `generate_mor_pos_label` actually returns: either a POS-label
string, or — when the lemma is a key of MOR_POS_OVERRIDES — the whole
word-form → label dictionary stored there (the source returns
`rules.MOR_POS_OVERRIDES[lemma]` unchanged, despite its `-> str`
annotation). -/
inductive PosResult where
  | label (s : String)
  | table (d : List (String × String))
deriving DecidableEq, Repr

/-- Python `str(...)` of a dict, as interpolated by an f-string. -/
def pyDictRepr (d : List (String × String)) : String :=
  let q := String.mk [aposChar]
  "\x7b" ++
    joinSep ", " (d.map (fun kv => q ++ kv.1 ++ q ++ ": " ++ q ++ kv.2 ++ q))
    ++ "\x7d"

/-- Python `str` conversion applied to a PosResult by an f-string. -/
def posStr : PosResult → String
  | PosResult.label s => s
  | PosResult.table d => pyDictRepr d

/-- generate_mor_pos_label: generate a %mor POS code for a token.
`none` models the IndexError on tag positions 0/1 for too-short tags. -/
def generate_mor_pos_label (token : FlaggedToken) : Option PosResult :=
  match alookup MOR_POS_OVERRIDES token.«lemma» with
  | some d => some (PosResult.table d)
  | none => do
    let c0 ← pyCharAt token.tag 0
    let result ←
      if c0 = 'N' then
        pure (if tflag.quotation_beginning ∉ token.flags ∧
                 token.word = pyCapitalize token.word
              then "n:prop" else "n")
      else if c0 = 'A' then do
        let c1 ← pyCharAt token.tag 1
        pure (if c1 = 'C' then "adj:short"
              else if c1 = 'U' then "adj:poss"
              else "adj")
      else if c0 = 'P' then do
        let c1 ← pyCharAt token.tag 1
        pure (if c1 = 'D' then "pro:dem"
              else if c1 = '5' ∨ c1 = 'E' ∨ c1 = 'H' ∨ c1 = 'P' then "pro:pers"
              else if c1 = '1' then "pro:rel"
              else if c1 = '4' ∨ c1 = 'Q' then "pro:rel/int"
              else if c1 = 'S' ∨ c1 = '9' then "pro:poss"
              else if c1 = 'W' ∨ c1 = 'Y' then "pro:neg"
              else if c1 = 'K' ∨ c1 = 'L' ∨ c1 = 'Z' then "pro:indef"
              else if c1 = '6' ∨ c1 = '7' then "pro:refl"
              else "pro")
      else if c0 = 'C' then do
        let c1 ← pyCharAt token.tag 1
        pure (if c1 = 'l' ∨ c1 = 'n' ∨ c1 = 'z' ∨ c1 = 'a' ∨ c1 = 'y' then
                "num:card"
              else if c1 = 'r' ∨ c1 = 'w' then "num:ord"
              else if c1 = 'v' ∨ c1 = 'o' then "num:mult"
              else "num")
      else if c0 = 'V' then pure "v"
      else if c0 = 'D' then pure "adv"
      else if c0 = 'R' then pure "prep"
      else if c0 = 'J' then do
        let c1 ← pyCharAt token.tag 1
        pure (if c1 = '^' ∨ c1 = '*' then "conj:coord"
              else if c1 = ',' then "conj:sub"
              else "")
      else if c0 = 'T' then pure "part"
      else if c0 = 'I' then pure "int"
      else if c0 = 'Z' then pure "Z"
      else pure "x"
    let result :=
      if (token.«lemma» = "tak" ∨ token.«lemma» = "proto") ∧ result = "adv" then
        "adv:pro"
      else result
    pure (PosResult.label result)

/-! ## generate_mor_tag (src/annot_util/conversions.py) -/

/-- Verb gender from tag position 2 (`match tag[2]`). -/
def verb_gender_step (c2 : Char) : PyDict :=
  if c2 = 'I' ∨ c2 = 'M' ∨ c2 = 'Y' then dset [] cats.gender "M"
  else if c2 = 'F' then dset [] cats.gender "F"
  else if c2 = 'N' then dset [] cats.gender "N"
  else []

/-- Verb number from tag position 3 (`match tag[3]`). -/
def verb_number_step (grcats : PyDict) (c3 : Char) : PyDict :=
  if c3 = 'S' then dset grcats cats.number "SG"
  else if c3 = 'P' then dset grcats cats.number "PL"
  else grcats

/-- Verb person from tag position 7 (`if tag[7] in ("1","2","3")`). -/
def verb_person_step (grcats : PyDict) (c7 : Char) : PyDict :=
  if c7 = '1' ∨ c7 = '2' ∨ c7 = '3' then
    dset grcats cats.person (String.mk [c7])
  else grcats

/-- Verb tense from tag position 8 (`match tag[8]`). -/
def verb_tense_step (grcats : PyDict) (c8 : Char) : PyDict :=
  if c8 = 'F' then dset grcats cats.tense "futur"
  else if c8 = 'P' then dset grcats cats.tense "pres"
  else if c8 = 'R' then dset grcats cats.tense "past"
  else grcats

/-- Verb voice from tag position 11 (`match tag[11]`). -/
def verb_voice_step (grcats : PyDict) (c11 : Char) : PyDict :=
  if c11 = 'A' then dset grcats cats.voice "akt"
  else if c11 = 'P' then dset grcats cats.voice "pas"
  else grcats

/-- Verb aspect from tag position 12 (`match tag[12]`). -/
def verb_aspect_step (grcats : PyDict) (c12 : Char) : PyDict :=
  if c12 = 'P' then dset grcats cats.aspect "pf"
  else if c12 = 'I' then dset grcats cats.aspect "impf"
  else if c12 = 'B' then dset grcats cats.aspect "biasp"
  else grcats

/-- Form-type specifics keyed on tag position 1 (`match tag[1]`). -/
def verb_form_type_step (grcats : PyDict) (c1 : Char) : Option PyDict :=
  if c1 = 'f' then
    let grcats := dset grcats cats.form_type "inf"
    require_cats grcats [cats.form_type, cats.aspect]
  else if c1 = 'p' ∨ c1 = 'q' then
    require_cats grcats
      [cats.number, cats.tense, cats.voice, cats.gender, cats.aspect]
  else if c1 = 's' then
    require_cats grcats [cats.number, cats.voice, cats.gender, cats.aspect]
  else if c1 = 'c' then
    let grcats := dset grcats cats.mood "cond"
    require_cats grcats
      [cats.person, cats.number, cats.mood, cats.voice, cats.aspect]
  else if c1 = 'i' then
    let grcats := dset grcats cats.mood "imp"
    let grcats := dset grcats cats.voice "akt"
    require_cats grcats
      [cats.person, cats.number, cats.mood, cats.voice, cats.aspect]
  else if c1 = 'B' ∨ c1 = 't' then
    let grcats := dset grcats cats.mood "ind"
    require_cats grcats
      [cats.person, cats.number, cats.mood, cats.tense, cats.voice,
       cats.aspect]
  else if c1 = 'e' ∨ c1 = 'm' then
    let grcats := dset grcats cats.form_type "trans"
    let grcats := dset grcats cats.voice "akt"
    require_cats grcats
      [cats.form_type, cats.number, cats.voice, cats.gender, cats.aspect]
  else pure grcats

/-- Verb block of `generate_mor_tag`: gender, number, person, tense,
voice, aspect from fixed tag positions (in the statement order of the
source), then the form-type-specific completion rules keyed on tag
position 1. -/
def verb_grcats (tag : String) : Option PyDict := do
  let c2 ← pyCharAt tag 2
  let grcats : PyDict := verb_gender_step c2
  let c3 ← pyCharAt tag 3
  let grcats := verb_number_step grcats c3
  let c7 ← pyCharAt tag 7
  let grcats := verb_person_step grcats c7
  let c8 ← pyCharAt tag 8
  let grcats := verb_tense_step grcats c8
  let c11 ← pyCharAt tag 11
  let grcats := verb_voice_step grcats c11
  let c12 ← pyCharAt tag 12
  let grcats := verb_aspect_step grcats c12
  let c1 ← pyCharAt tag 1
  verb_form_type_step grcats c1

/-- Nominal block of `generate_mor_tag` (nouns, adjectives, pronouns,
non-multiplicative numerals): gender, number, case, then defaults. -/
def nominal_grcats (tag : String) (c0 : Char) : Option PyDict := do
  let c2 ← pyCharAt tag 2
  let grcats : PyDict :=
    if c2 = 'M' then dset [] cats.gender (if c0 = 'N' then "MA" else "M")
    else if c2 = 'I' then dset [] cats.gender (if c0 = 'N' then "MI" else "M")
    else if c2 = 'Y' then dset [] cats.gender "M"
    else if c2 = 'F' then dset [] cats.gender "F"
    else if c2 = 'N' then dset [] cats.gender "N"
    else []
  let c3 ← pyCharAt tag 3
  let grcats :=
    if c3 = 'S' then dset grcats cats.number "SG"
    else if c3 = 'P' ∨ c3 = 'D' then dset grcats cats.number "PL"
    else grcats
  let c4 ← pyCharAt tag 4
  let grcats :=
    if c4.isDigit then dset grcats cats.case_ (String.mk [c4]) else grcats
  require_cats grcats [cats.gender, cats.number, cats.case_]

/-- Category-extraction part of `generate_mor_tag` (everything before the
final string building): computes the lexical and grammatical category
dictionaries of a token.  `none` models an IndexError on a too-short tag
or the KeyError of the final `del grcats[cats.gender]`. -/
def morCategories (token : Token) : Option (PyDict × PyDict) := do
  let tag := token.tag
  let c10 ← pyCharAt tag 10
  let lxcats : PyDict :=
    if c10 = 'N' then dset [] cats.negation "neg" else []
  let c0 ← pyCharAt tag 0
  let grcats ←
    if c0 = 'V' then verb_grcats tag
    else if (c0 = 'N' ∨ c0 = 'A' ∨ c0 = 'P' ∨ c0 = 'C') ∧
            strStartsWith tag "Cv" = false then
      nominal_grcats tag c0
    else pure []
  let lxcats ←
    if c0 = 'A' ∨ c0 = 'D' then do
      let c9 ← pyCharAt tag 9
      pure (if c9 = '2' then dset lxcats cats.comp_deg "CP"
            else if c9 = '3' then dset lxcats cats.comp_deg "SP"
            else lxcats)
    else pure lxcats
  let grcats :=
    if token.«lemma» = "co" ∨ token.«lemma» = "něco" ∨ token.«lemma» = "nic" then
      dset grcats cats.gender "N"
    else grcats
  let grcats :=
    if token.«lemma» ∈ ["kdo", "někdo", "nikdo", "kdokoli", "kdokoliv",
                        "kdosi", "kdopak"] then
      dset grcats cats.gender "M"
    else grcats
  let grcats :=
    if token.«lemma» ∈ ["kdo", "co", "něco", "nic", "někdo", "nikdo",
                        "kdokoli", "kdokoliv", "kdosi", "kdopak", "se"] then
      dset grcats cats.number "SG"
    else grcats
  let grcats ←
    if token.«lemma» ∈ ["já", "my", "ty", "vy", "se"] then
      ddel grcats cats.gender
    else pure grcats
  pure (lxcats, grcats)

/-- String building of `generate_mor_tag`: non-empty grammatical
categories joined with `&` in GRAMMATICAL_CATEGORY_ORDER, then the
lexical categories in LEXICAL_CATEGORY_ORDER plus the grammatical string
joined with `-`. -/
def generate_mor_tag (token : Token) : Option String :=
  (morCategories token).map (fun p =>
    let gr_joined :=
      joinSep "&" (GRAMMATICAL_CATEGORY_ORDER.filterMap (fun c => dget p.2 c))
    joinSep "-"
      ((LEXICAL_CATEGORY_ORDER.filterMap (fun c => dget p.1 c)) ++ [gr_joined]))

/-! ## construct_mor_word and the line pipeline (src/annotation.py) -/

/-- construct_mor_word: the entire %mor annotation for one token.
Resolution order: punctuation label, interjection / neologism / foreign
flags, full-word override, generic composition with lemma substitution.
`none` models a propagated IndexError/KeyError from the classifier. -/
def construct_mor_word (token : FlaggedToken) : Option String := do
  let pos_label ← generate_mor_pos_label token
  if pos_label = PosResult.label "Z" then
    pure (if token.«lemma» = "," then "cm|cm" else token.«lemma»)
  else if tflag.interjection ∈ token.flags then
    pure ("int|" ++ token.word)
  else if tflag.neologism ∈ token.flags then
    pure ("x|" ++ token.word ++ "-neo")
  else if tflag.foreign ∈ token.flags then
    pure ("x|" ++ token.word ++ "-for")
  else
    match alookup MOR_WORDS_OVERRIDES token.word with
    | some s => pure s
    | none => do
      let tagStr ← generate_mor_tag token.toToken
      let new_tag := if tagStr ≠ "" then "-" ++ tagStr else ""
      let lemma0 := token.«lemma»
      let lemma0 :=
        match alookup MOR_MLEMMAS_LEMMA_OVERRIDES token.«lemma» with
        | some l => l
        | none => lemma0
      let lemma0 :=
        match alookup MOR_WORDS_LEMMA_OVERRIDES token.word with
        | some l => l
        | none =>
          if tflag.neologism ∈ token.flags then token.word else lemma0
      pure (posStr pos_label ++ "|" ++ lemma0 ++ new_tag)

/-- filter_tokens: drop tokens whose surface form is a curly quote. -/
def filter_tokens (tokens : List FlaggedToken) : List FlaggedToken :=
  tokens.filter (fun t => t.word ≠ "“" ∧ t.word ≠ "”")

/-- Type of the external tokenizer collaborator. -/
abbrev TokenizerF := String → List String

/-- Type of the external tagger collaborator (text, guesser flag). -/
abbrev TaggerF := String → Bool → List Token

/-- mor_line: create a `%mor:` line from a normalized plain-text line.
Flags are derived per token boundary from placeholder suffixes and the
quotation-opening context, placeholders stripped, the text tagged, each
token turned into an annotation word, quote tokens dropped, the words
joined and cosmetic spacing fixes applied.  `none` models a propagated
exception (IndexError on flag lookup, classifier errors). -/
def mor_line (tokenizer : TokenizerF) (tagger : TaggerF) (guesser : Bool)
    (text : String) : Option String := do
  let tokens := tokenizer text
  let flags : List (List tflag) := tokens.enum.map (fun iw =>
    let flag :=
      if strEndsWith iw.2 PLACEHOLDER_NEOLOGISM then [tflag.neologism]
      else if strEndsWith iw.2 PLACEHOLDER_FOREIGN then [tflag.foreign]
      else if strEndsWith iw.2 PLACEHOLDER_INTERJECTION then
        [tflag.interjection]
      else []
    if iw.1 > 0 ∧ tokens.get? (iw.1 - 1) = some "“" then
      flag ++ [tflag.quotation_beginning]
    else flag)
  let text := strReplaceAll
    (strReplaceAll (strReplaceAll text PLACEHOLDER_NEOLOGISM "")
      PLACEHOLDER_FOREIGN "")
    PLACEHOLDER_INTERJECTION ""
  let tagged_tokens ← (tagger text guesser).enum.mapM (fun it =>
    (flags.get? it.1).map (fun fl => FlaggedToken.mk it.2 fl))
  let tagged_tokens := filter_tokens tagged_tokens
  let result ← tagged_tokens.mapM construct_mor_word
  let text := "%mor:\t" ++ joinSep " " result
  pure (strReplaceAll (strReplaceAll text "+ . . ." "+...") "+ / ." "+/.")

/-- Errors a line can produce: a ChatToPlainTextConversionError (with the
offending line and last intermediate result), any other exception
propagated out of mor_line, or fuel exhaustion of the modelled
normalization loop. -/
inductive PipeErr where
  | conv (chatLine result : String)
  | exc
  | fuelOut
deriving DecidableEq, Repr

/-- process_line: strip the line of surrounding spaces/newlines, always
yield it first, then — unless it is a header/dependent-tier line — try to
normalize it and, when the result is non-empty and not on the skip list,
yield the generated %mor line.  The returned list holds the lines yielded
before the (optional) error, matching the generator semantics of the
source. -/
def process_line (tokenizer : TokenizerF) (tagger : TaggerF) (guesser : Bool)
    (fuel : Nat) (line : String) : List String × Option PipeErr :=
  let line := pyStrip [' ', '\n'] line
  if strStartsWith line "@" || strStartsWith line "%" then ([line], none)
  else
    match chat_to_plain_text fuel line with
    | ChatResult.noneRes => ([line], none)
    | ChatResult.convError a b => ([line], some (PipeErr.conv a b))
    | ChatResult.fuelOut => ([line], some PipeErr.fuelOut)
    | ChatResult.ok r =>
      if r ≠ "" ∧ r ∉ SKIP_LINES then
        match mor_line tokenizer tagger guesser r with
        | some m => ([line, m], none)
        | none => ([line], some PipeErr.exc)
      else ([line], none)

/-- annotate_filestream: process the lines in order, printing the outputs
of each; an uncaught exception from process_line aborts the stream (the
remaining lines are not processed). -/
def annotate_filestream (tokenizer : TokenizerF) (tagger : TaggerF)
    (guesser : Bool) (fuel : Nat) :
    List String → List String × Option PipeErr
  | [] => ([], none)
  | l :: rest =>
    let p := process_line tokenizer tagger guesser fuel l
    match p.2 with
    | some e => (p.1, some e)
    | none =>
      let q := annotate_filestream tokenizer tagger guesser fuel rest
      (p.1 ++ q.1, q.2)

/-- Batch loop of `_handle_args`: annotate each file in turn; a
ChatToPlainTextConversionError is caught per file (reported, `_ecode`
set to 1, next file processed); any other exception crashes the run
(`none`).  Returns the per-file outputs and whether any file failed. -/
def annotate_batch (tokenizer : TokenizerF) (tagger : TaggerF)
    (guesser : Bool) (fuel : Nat) :
    List (List String) → Option (List (List String) × Bool)
  | [] => some ([], false)
  | f :: fs =>
    let p := annotate_filestream tokenizer tagger guesser fuel f
    match p.2 with
    | none =>
      (annotate_batch tokenizer tagger guesser fuel fs).map
        (fun q => (p.1 :: q.1, q.2))
    | some (PipeErr.conv _ _) =>
      (annotate_batch tokenizer tagger guesser fuel fs).map
        (fun q => (p.1 :: q.1, true))
    | some _ => none

/-- A trivial external tokenizer (used for concrete evaluations). -/
def emptyTokenizer : TokenizerF := fun _ => []

/-- A trivial external tagger (used for concrete evaluations). -/
def emptyTagger : TaggerF := fun _ _ => []

/-! ## Specification-side definitions (for refinement claims) -/

/-- Whether a string passes the plain-text acceptance pattern. -/
def plainTextMatchB (s : String) : Bool :=
  reSearch PLAIN_TEXT_CRITERIA s.data

/-- Serialization as worded by the specification: the grammatical
categories present joined with `&` in the fixed order form-type, case,
person, number, mood, tense, voice, gender, aspect; the lexical
categories joined with `-` in the order comparison-degree, negation,
with the grammatical-category string as the last element. -/
def mor_serialize_spec (lx gr : PyDict) : String :=
  let grammatical :=
    joinSep "&" ([cats.form_type, cats.case_, cats.person, cats.number,
      cats.mood, cats.tense, cats.voice, cats.gender,
      cats.aspect].filterMap (fun c => dget gr c))
  joinSep "-"
    (([cats.comp_deg, cats.negation].filterMap (fun c => dget lx c))
      ++ [grammatical])

/-- Lemma selection as worded by the specification for the generic
branch of the word builder: the MorfFlex-lemma substitution applies
first, and a word-form-level override takes precedence over it. -/
def mor_lemma_spec (token : FlaggedToken) : String :=
  match alookup MOR_WORDS_LEMMA_OVERRIDES token.word with
  | some l => l
  | none =>
    match alookup MOR_MLEMMAS_LEMMA_OVERRIDES token.«lemma» with
    | some l => l
    | none => token.«lemma»

/-! ## Concrete inputs used by the claim theorems -/

/-- A form of the copula with its MorphoDiTa tag. -/
def tok_byt_je : FlaggedToken :=
  ⟨⟨"je", "být", "VB-S---3P-AA---"⟩, []⟩

/-- The reflexive lemma on an infinitive verb tag (no gender position). -/
def tok_se_inf : Token := ⟨"se", "se", "Vf--------A-I--"⟩

/-- A negated adverb: lexical negation set, no grammatical category. -/
def tok_nehezky : Token := ⟨"nehezky", "nehezky", "Dg-------1N----"⟩

/-- A token whose MorfFlex lemma has a lemma override (lidé → člověk). -/
def tok_lide : FlaggedToken :=
  ⟨⟨"lidé", "lidé", "NNMP1-----A----"⟩, []⟩

/-- An ordinary neuter noun token. -/
def tok_auto : FlaggedToken :=
  ⟨⟨"auto", "auto", "NNNS1-----A----"⟩, []⟩

/-! ## Shared lemmas -/

/-- The normalization loop returns `ok` only for a string that is empty
or passes the acceptance pattern (the loop's exit condition). -/
theorem chatLoopGo_ok (f : Nat) :
    ∀ (cl res : List Char) (fi nr : Bool) (r : String),
      chatLoopGo f cl res fi nr = ChatResult.ok r →
      r = "" ∨ plainTextMatchB r = true := by
  induction f with
  | zero =>
    intro cl res fi nr r h
    simp [chatLoopGo] at h
  | succ n ih =>
    intro cl res fi nr r h
    unfold chatLoopGo at h
    split at h
    · split at h
      · exact absurd h (by simp)
      · exact ih cl (rulesPass res).1 false (rulesPass res).2 r h
    · rename_i hcond
      have hres : r = String.mk res := by
        cases h
        rfl
      by_cases hemp : res = []
      · left
        rw [hres, hemp]
      · right
        rcases Bool.eq_false_or_eq_true (reSearch PLAIN_TEXT_CRITERIA res) with hs | hs
        · rw [hres]
          exact hs
        · exact absurd (Or.inr ⟨hemp, hs⟩) hcond

/-- When a rule pass does not short-circuit on the empty string, the
returned `needs_review` flag states whether the pass changed the string. -/
theorem rulesPassGo_snd (rules : List (RE × List RItem)) :
    ∀ (res ri : List Char),
      (rulesPassGo rules res ri).1 ≠ [] →
      (rulesPassGo rules res ri).2 = decide ((rulesPassGo rules res ri).1 ≠ res) := by
  induction rules with
  | nil =>
    intro res ri _
    rfl
  | cons rule rest ih =>
    intro res ri h
    unfold rulesPassGo
    unfold rulesPassGo at h
    split
    · rename_i hri
      rw [hri] at h
      simp [rulesPassGo] at h
    · rename_i hri
      rw [if_neg hri] at h
      exact ih res (reSub rule.1 rule.2 ri) h

/-- Unfolding equation for a two-element-or-longer join. -/
theorem joinSep_cons₂ (sep x y : String) (l : List String) :
    joinSep sep (x :: y :: l) = x ++ sep ++ joinSep sep (y :: l) := rfl

/-- Appending an empty final element to a non-empty join adds a trailing
separator. -/
theorem joinSep_append_empty (sep : String) :
    ∀ (xs : List String), xs ≠ [] →
      joinSep sep (xs ++ [""]) = joinSep sep xs ++ sep := by
  intro xs
  induction xs with
  | nil => intro h; exact absurd rfl h
  | cons x rest ih =>
    intro _
    cases rest with
    | nil => simp [joinSep]
    | cons y ys =>
      have h2 := ih (by simp)
      calc joinSep sep ((x :: y :: ys) ++ [""])
          = x ++ sep ++ joinSep sep ((y :: ys) ++ [""]) := rfl
        _ = x ++ sep ++ (joinSep sep (y :: ys) ++ sep) := by rw [h2]
        _ = x ++ sep ++ joinSep sep (y :: ys) ++ sep := by
            rw [← String.append_assoc]
        _ = joinSep sep (x :: y :: ys) ++ sep := rfl

/-- Replacing the entries of key `k` makes lookup of `k` find `v`,
provided `k` occurs. -/
theorem alookup_map_replace (k : cats) (v : String) :
    ∀ d : PyDict, (alookup d k).isSome →
      alookup (d.map fun kv => if kv.1 = k then (k, v) else kv) k = some v := by
  intro d
  induction d with
  | nil => intro h; simp [alookup] at h
  | cons kv rest ih =>
    intro h
    simp only [List.map_cons]
    by_cases hk : kv.1 = k
    · rw [if_pos hk]
      simp [alookup]
    · rw [if_neg hk]
      simp only [alookup, if_neg hk] at h ⊢
      exact ih h

/-- Replacing the entries of key `k` leaves lookups of other keys
unchanged. -/
theorem alookup_map_replace_ne (k : cats) (v : String) (c : cats)
    (hck : c ≠ k) :
    ∀ d : PyDict,
      alookup (d.map fun kv => if kv.1 = k then (k, v) else kv) c =
        alookup d c := by
  intro d
  induction d with
  | nil => rfl
  | cons kv rest ih =>
    simp only [List.map_cons]
    by_cases hk : kv.1 = k
    · rw [if_pos hk]
      have h1 : ¬ (k = c) := fun h => hck h.symm
      have h2 : ¬ (kv.1 = c) := by
        rw [hk]
        exact h1
      simp only [alookup, if_neg h1, if_neg h2]
      exact ih
    · rw [if_neg hk]
      by_cases hc : kv.1 = c
      · simp [alookup, hc]
      · simp only [alookup, if_neg hc]
        exact ih

/-- Appending a `(k, v)` entry to a list without key `k` makes lookup of
`k` find `v`. -/
theorem alookup_append_self (k : cats) (v : String) :
    ∀ d : PyDict, alookup d k = none →
      alookup (d ++ [(k, v)]) k = some v := by
  intro d
  induction d with
  | nil => intro _; simp [alookup]
  | cons kv rest ih =>
    intro h
    by_cases hk : kv.1 = k
    · simp only [alookup, if_pos hk] at h
      exact absurd h (by simp)
    · simp only [alookup, if_neg hk] at h
      simp only [List.cons_append, alookup, if_neg hk]
      exact ih h

/-- Appending a `(k, v)` entry leaves lookups of other keys unchanged. -/
theorem alookup_append_ne (k : cats) (v : String) (c : cats) (hck : c ≠ k) :
    ∀ d : PyDict, alookup (d ++ [(k, v)]) c = alookup d c := by
  intro d
  induction d with
  | nil =>
    have h1 : ¬ (k = c) := fun h => hck h.symm
    simp [alookup, if_neg h1]
  | cons kv rest ih =>
    by_cases hk : kv.1 = c
    · simp [alookup, hk]
    · simp only [List.cons_append, alookup, if_neg hk]
      exact ih

/-- Lookup after Python dict assignment. -/
theorem dget_dset (d : PyDict) (k : cats) (v : String) (c : cats) :
    dget (dset d k v) c = if c = k then some v else dget d c := by
  unfold dset dget
  by_cases hck : c = k
  · subst hck
    split
    · rename_i hpresent
      rw [if_pos rfl]
      exact alookup_map_replace c v d hpresent
    · rename_i habsent
      rw [if_pos rfl]
      exact alookup_append_self c v d (Option.not_isSome_iff_eq_none.mp habsent)
  · rw [if_neg hck]
    split
    · exact alookup_map_replace_ne k v c hck d
    · exact alookup_append_ne k v c hck d

/-- A successful association-list lookup yields a member of the list. -/
theorem alookup_mem {κ α : Type} [DecidableEq κ] :
    ∀ (l : List (κ × α)) (k : κ) (v : α),
      alookup l k = some v → (k, v) ∈ l := by
  intro l
  induction l with
  | nil => intro k v h; simp [alookup] at h
  | cons kv rest ih =>
    intro k v h
    unfold alookup at h
    split at h
    · rename_i hk
      cases h
      have hkv : (k, kv.2) = kv := by
        rw [← hk]
      rw [hkv]
      exact List.mem_cons_self _ _
    · right
      exact ih k v h

/-- Every category with an entry in EMPTY_GRAM_CAT_DEFAULT. -/
theorem default_isSome (c : cats) (h1 : c ≠ cats.negation)
    (h2 : c ≠ cats.comp_deg) (h3 : c ≠ cats.form_type) :
    (alookup EMPTY_GRAM_CAT_DEFAULT c).isSome := by
  cases c <;> simp_all <;> decide

/-- Indexing a sufficiently long string succeeds. -/
theorem pyCharAt_isSome (s : String) (i : Nat) (h : i < s.data.length) :
    ∃ c, pyCharAt s i = some c := by
  unfold pyCharAt
  rcases hg : s.data.get? i with _ | c
  · rw [List.get?_eq_none] at hg
    omega
  · exact ⟨c, rfl⟩

/-- require_cats succeeds whenever every required category is already
present or has a default. -/
theorem require_cats_isSome :
    ∀ (reqs : List cats) (d : PyDict),
      (∀ c ∈ reqs, (dget d c).isSome ∨
        (alookup EMPTY_GRAM_CAT_DEFAULT c).isSome) →
      (require_cats d reqs).isSome := by
  intro reqs
  induction reqs with
  | nil => intro d _; simp [require_cats]
  | cons req rest ih =>
    intro d h
    unfold require_cats
    by_cases hpres : (dget d req).isSome
    · simp only [if_pos hpres]
      simp only [Option.pure_def, Option.bind_eq_bind, Option.some_bind]
      exact ih d (fun c hc => h c (List.mem_cons_of_mem _ hc))
    · rcases h req (List.mem_cons_self _ _) with hp | hdef
      · exact absurd hp hpres
      · obtain ⟨v, hv⟩ := Option.isSome_iff_exists.mp hdef
        simp only [if_neg hpres, hv, Option.pure_def, Option.bind_eq_bind,
          Option.some_bind]
        refine ih (dset d req v) (fun c hc => ?_)
        rcases h c (List.mem_cons_of_mem _ hc) with hp | hd
        · left
          rw [dget_dset]
          split
          · simp
          · exact hp
        · right
          exact hd

/-- The form-type completion rules always succeed: every required
category either has a default or was set just before. -/
theorem verb_form_type_step_isSome (grcats : PyDict) (c1 : Char) :
    (verb_form_type_step grcats c1).isSome := by
  unfold verb_form_type_step
  repeat' split
  all_goals
    first
      | rfl
      | (apply require_cats_isSome
         intro c hc
         fin_cases hc <;>
           first
             | (left; simp [dget_dset]; done)
             | (right; decide))

/-- The verb block of the classifier never fails on a 15-character tag. -/
theorem verb_grcats_isSome (tag : String) (hlen : tag.data.length = 15) :
    (verb_grcats tag).isSome := by
  obtain ⟨c2, h2⟩ := pyCharAt_isSome tag 2 (by omega)
  obtain ⟨c3, h3⟩ := pyCharAt_isSome tag 3 (by omega)
  obtain ⟨c7, h7⟩ := pyCharAt_isSome tag 7 (by omega)
  obtain ⟨c8, h8⟩ := pyCharAt_isSome tag 8 (by omega)
  obtain ⟨c11, h11⟩ := pyCharAt_isSome tag 11 (by omega)
  obtain ⟨c12, h12⟩ := pyCharAt_isSome tag 12 (by omega)
  obtain ⟨c1, h1⟩ := pyCharAt_isSome tag 1 (by omega)
  simp only [verb_grcats, h2, h3, h7, h8, h11, h12, h1,
    Option.bind_eq_bind, Option.some_bind]
  exact verb_form_type_step_isSome _ c1

/-- The nominal block of the classifier never fails on a 15-character
tag. -/
theorem nominal_grcats_isSome (tag : String) (c0 : Char)
    (hlen : tag.data.length = 15) :
    (nominal_grcats tag c0).isSome := by
  obtain ⟨c2, h2⟩ := pyCharAt_isSome tag 2 (by omega)
  obtain ⟨c3, h3⟩ := pyCharAt_isSome tag 3 (by omega)
  obtain ⟨c4, h4⟩ := pyCharAt_isSome tag 4 (by omega)
  simp only [nominal_grcats, h2, h3, h4, Option.bind_eq_bind,
    Option.some_bind]
  apply require_cats_isSome
  intro c hc
  fin_cases hc <;> (right; decide)

/-- An if-then-else of two `some`s is always `some`. -/
theorem ite_some_isSome {α : Type} (c : Prop) [Decidable c] (a b : α) :
    (if c then some a else some b).isSome := by
  split <;> rfl

/-- Category extraction never fails on a 15-character tag unless the
lemma is one of the five gender-deletion lemmas. -/
theorem morCategories_isSome (token : Token)
    (hlen : token.tag.data.length = 15)
    (hlem : token.«lemma» ∉ ["já", "my", "ty", "vy", "se"]) :
    (morCategories token).isSome := by
  obtain ⟨c10, h10⟩ := pyCharAt_isSome token.tag 10 (by omega)
  obtain ⟨c0, h0⟩ := pyCharAt_isSome token.tag 0 (by omega)
  obtain ⟨c9, h9⟩ := pyCharAt_isSome token.tag 9 (by omega)
  simp only [morCategories, h10, h0, h9, Option.pure_def,
    Option.bind_eq_bind, Option.some_bind, if_neg hlem]
  split
  · obtain ⟨g, hg⟩ :=
      Option.isSome_iff_exists.mp (verb_grcats_isSome token.tag hlen)
    rw [hg]
    simp only [Option.some_bind]
    exact ite_some_isSome _ _ _
  · obtain ⟨g, hg⟩ :=
      Option.isSome_iff_exists.mp (nominal_grcats_isSome token.tag c0 hlen)
    rw [hg]
    simp only [Option.some_bind]
    split <;> exact ite_some_isSome _ _ _

/-- The POS labeller never fails on a 15-character tag. -/
theorem generate_mor_pos_label_isSome (token : FlaggedToken)
    (hlen : token.tag.data.length = 15) :
    (generate_mor_pos_label token).isSome := by
  cases hov : alookup MOR_POS_OVERRIDES token.«lemma» with
  | some d => simp [generate_mor_pos_label, hov]
  | none =>
    obtain ⟨c0, h0⟩ := pyCharAt_isSome token.tag 0 (by omega)
    obtain ⟨c1, h1⟩ := pyCharAt_isSome token.tag 1 (by omega)
    simp only [generate_mor_pos_label, hov, h0, h1, Option.pure_def,
      Option.bind_eq_bind, Option.some_bind]
    simp only [apply_ite Option.isSome, Option.isSome_some, ite_self]

/-- One loop iteration with `needs_review` set runs a rule pass. -/
theorem chatLoopGo_step (fuel : Nat) (cl res : List Char) :
    chatLoopGo (fuel + 1) cl res true true =
      chatLoopGo fuel cl (rulesPass res).1 false (rulesPass res).2 := by
  conv_lhs => rw [chatLoopGo]
  rw [if_pos (Or.inl rfl), if_neg (by simp)]

/-- The loop exits with `ok` once the string passes the acceptance
pattern and it is not the first iteration. -/
theorem chatLoopGo_exit (fuel : Nat) (cl res : List Char) (nr : Bool)
    (h : reSearch PLAIN_TEXT_CRITERIA res = true) :
    chatLoopGo (fuel + 1) cl res false nr = ChatResult.ok (String.mk res) := by
  unfold chatLoopGo
  rw [if_neg]
  intro hcond
  rcases hcond with hfi | hne
  · simp at hfi
  · rw [h] at hne
    simp at hne

/-! ## Claims -/

/-- C1 (counterexample): the claim says that after a normalization
failure every subsequent line of the same stream is still processed.  In
fact the stream aborts: for the stream ["abc", "ahoj ."], where "abc"
cannot be normalized, the outputs are just the echo of "abc" — the
second line is never echoed nor annotated. -/
theorem c1_counterexample :
    annotate_filestream emptyTokenizer emptyTagger false 4 ["abc", "ahoj ."] =
      (["abc"], some (PipeErr.conv "abc" "abc")) ∧
      ("ahoj ." : String) ∉ (["abc"] : List String) := by
  refine ⟨by decide, by decide⟩

/-- C1 (amended): a ChatToPlainTextConversionError propagates out of
process_line, so the remaining lines of the stream are not processed; in
batch mode the error is caught per file: the file's output so far is
kept, the error flag (exit code 1) is set, and the remaining files are
still processed. -/
theorem c1_failure_aborts_stream_batch_continues
    (T : TokenizerF) (K : TaggerF) (g : Bool) (f : Nat)
    (line : String) (rest : List String) (e : PipeErr)
    (file : List String) (fs : List (List String)) (outs : List String)
    (a b : String) (ro : List (List String)) (ec : Bool)
    (hline : (process_line T K g f line).2 = some e)
    (hfile : annotate_filestream T K g f file = (outs, some (PipeErr.conv a b)))
    (hrest : annotate_batch T K g f fs = some (ro, ec)) :
    annotate_filestream T K g f (line :: rest) =
        ((process_line T K g f line).1, some e) ∧
      annotate_batch T K g f (file :: fs) = some (outs :: ro, true) := by
  constructor
  · simp only [annotate_filestream, hline]
  · simp only [annotate_batch, hfile, hrest, Option.map_some']

/-- C1 (witness): concrete instantiation with the failing line "abc" and
the well-formed line "ahoj .". -/
theorem c1_witness :
    (process_line emptyTokenizer emptyTagger false 4 "abc").2 =
        some (PipeErr.conv "abc" "abc") ∧
      annotate_filestream emptyTokenizer emptyTagger false 4 ["abc"] =
        (["abc"], some (PipeErr.conv "abc" "abc")) ∧
      annotate_batch emptyTokenizer emptyTagger false 4 [["ahoj ."]] =
        some ([["ahoj .", "%mor:\t"]], false) ∧
      annotate_filestream emptyTokenizer emptyTagger false 4
          ("abc" :: ["ahoj ."]) =
        ((process_line emptyTokenizer emptyTagger false 4 "abc").1,
          some (PipeErr.conv "abc" "abc")) ∧
      annotate_batch emptyTokenizer emptyTagger false 4
          (["abc"] :: [["ahoj ."]]) =
        some (["abc"] :: [["ahoj .", "%mor:\t"]], true) := by
  have h := c1_failure_aborts_stream_batch_continues emptyTokenizer
    emptyTagger false 4 "abc" ["ahoj ."] (PipeErr.conv "abc" "abc")
    ["abc"] [["ahoj ."]] ["abc"] "abc" "abc" [["ahoj .", "%mor:\t"]] false
    (by decide) (by decide) (by decide)
  exact ⟨by decide, by decide, by decide, h.1, h.2⟩

/-- C2: the claim says generate_mor_pos_label returns the lemma's
override POS label as a string, selecting by the word form for the
copula.  The code instead returns the whole word-form dictionary stored
in MOR_POS_OVERRIDES (its own annotation promises a str): at word "je",
lemma "být" the result is the table object, never a label string. -/
theorem c2_pos_override_returns_table :
    generate_mor_pos_label tok_byt_je =
        some (PosResult.table mor_pos_overrides_byt) ∧
      ∀ s : String,
        (PosResult.table mor_pos_overrides_byt) ≠ PosResult.label s := by
  constructor
  · decide
  · intro s
    simp

/-- C3 (counterexample): the claim asserts totality of classification for
every well-formed 15-character tag and all word/lemma values.  For the
lemma "se" on an infinitive verb tag (which yields no gender category),
`del grcats[cats.gender]` raises KeyError (modelled as `none`). -/
theorem c3_counterexample :
    tok_se_inf.tag.length = 15 ∧ generate_mor_tag tok_se_inf = none := by
  refine ⟨by decide, by decide⟩

/-- C3 (amended): for every token whose tag has the tagset's fixed width
of 15 characters and whose lemma is not one of já/my/ty/vy/se (the
lemmas whose gender category is deleted), both classification steps
return without raising. -/
theorem c3_classification_total (token : FlaggedToken)
    (hlen : token.tag.length = 15)
    (hlem : token.«lemma» ∉ ["já", "my", "ty", "vy", "se"]) :
    (generate_mor_pos_label token).isSome ∧
      (generate_mor_tag token.toToken).isSome := by
  have hlen2 : token.tag.data.length = 15 := hlen
  constructor
  · exact generate_mor_pos_label_isSome token hlen2
  · unfold generate_mor_tag
    obtain ⟨p, hp⟩ := Option.isSome_iff_exists.mp
      (morCategories_isSome token.toToken hlen2 hlem)
    rw [hp]
    rfl

/-- C3 (witness): a plain neuter noun token. -/
theorem c3_witness :
    tok_auto.tag.length = 15 ∧
      tok_auto.«lemma» ∉ ["já", "my", "ty", "vy", "se"] ∧
      ((generate_mor_pos_label tok_auto).isSome ∧
        (generate_mor_tag tok_auto.toToken).isSome) :=
  ⟨by decide, by decide,
   c3_classification_total tok_auto (by decide) (by decide)⟩

/-- C4 (counterexample): normalization is not idempotent on its own
output: "neee ." normalizes to "nee ." (one [Nn]ee rewrite per pass, and
the loop stops as soon as the result matches the acceptance pattern),
but normalizing "nee ." gives "ne .". -/
theorem c4_counterexample :
    chat_to_plain_text 3 "neee ." = ChatResult.ok "nee ." ∧
      chat_to_plain_text 3 "nee ." = ChatResult.ok "ne ." ∧
      ("ne ." : String) ≠ "nee ." := by
  refine ⟨by decide, by decide, by decide⟩

/-- C4 (amended): normalization is idempotent on those of its outputs
that are fixed points of one full rule-table pass: if
chat_to_plain_text(L) returns a non-empty r left unchanged by a pass,
then chat_to_plain_text(r) returns r. -/
theorem c4_idempotent_on_pass_fixed_points (f : Nat) (line r : String)
    (hok : chat_to_plain_text f line = ChatResult.ok r)
    (hne : r ≠ "")
    (hfix : (rulesPass r.data).1 = r.data) :
    chat_to_plain_text 2 r = ChatResult.ok r := by
  have hsearch : reSearch PLAIN_TEXT_CRITERIA r.data = true := by
    unfold chat_to_plain_text at hok
    split at hok
    · exact absurd hok (by simp)
    · rcases chatLoopGo_ok f line.data line.data true true r hok with h | h
      · exact absurd h hne
      · exact h
  have hdata : r.data ≠ [] := by
    intro h
    apply hne
    cases r with
    | mk d =>
      have hd : d = [] := h
      rw [hd]
  have hsnd : (rulesPass r.data).2 = false := by
    have h2 := rulesPassGo_snd CHAT_TO_PLAIN_TEXT r.data r.data
      (by rw [show rulesPassGo CHAT_TO_PLAIN_TEXT r.data r.data =
            rulesPass r.data from rfl, hfix]; exact hdata)
    rw [show rulesPassGo CHAT_TO_PLAIN_TEXT r.data r.data =
        rulesPass r.data from rfl] at h2
    rw [h2, hfix]
    simp
  have hpass : rulesPass r.data = (r.data, false) := by
    exact Prod.ext hfix hsnd
  have hmk : String.mk r.data = r := by
    cases r
    rfl
  calc chat_to_plain_text 2 r
      = chatLoopGo 2 r.data r.data true true := by
        unfold chat_to_plain_text
        rw [if_neg hne]
    _ = chatLoopGo 1 r.data (rulesPass r.data).1 false (rulesPass r.data).2 :=
        chatLoopGo_step 1 r.data r.data
    _ = chatLoopGo 1 r.data r.data false false := by rw [hpass]
    _ = ChatResult.ok (String.mk r.data) :=
        chatLoopGo_exit 0 r.data r.data false hsearch
    _ = ChatResult.ok r := by rw [hmk]

/-- C4 (witness): the line "." is a pass fixed point. -/
theorem c4_witness :
    chat_to_plain_text 3 "." = ChatResult.ok "." ∧
      ("." : String) ≠ "" ∧
      (rulesPass ("." : String).data).1 = ("." : String).data ∧
      chat_to_plain_text 2 "." = ChatResult.ok "." :=
  ⟨by decide, by decide, by decide,
   c4_idempotent_on_pass_fixed_points 3 "." "." (by decide) (by decide)
     (by decide)⟩

/-- C5 (counterexample): chat_to_plain_text can return a non-None result
that does not match the acceptance grammar: on "xxx" the rule pass
empties the string, the loop exits on the empty string, and "" (which
ends in no terminal token) is returned. -/
theorem c5_counterexample :
    chat_to_plain_text 3 "xxx" = ChatResult.ok "" ∧
      plainTextMatchB "" = false := by
  refine ⟨by decide, by decide⟩

/-- C5 (amended): whenever chat_to_plain_text returns a non-None result,
that result is either the empty string or matches the plain-text
acceptance pattern PLAIN_TEXT_CRITERIA. -/
theorem c5_result_empty_or_matches (f : Nat) (line r : String)
    (hok : chat_to_plain_text f line = ChatResult.ok r) :
    r = "" ∨ plainTextMatchB r = true := by
  unfold chat_to_plain_text at hok
  split at hok
  · exact absurd hok (by simp)
  · exact chatLoopGo_ok f line.data line.data true true r hok

/-- C5 (witness): the accepted line ".". -/
theorem c5_witness :
    chat_to_plain_text 3 "." = ChatResult.ok "." ∧
      (("." : String) = "" ∨ plainTextMatchB "." = true) :=
  ⟨by decide, c5_result_empty_or_matches 3 "." "." (by decide)⟩

/-- C6 (counterexample): the claim says the serialization never has a
trailing delimiter.  For a negated adverb (lexical negation present, no
grammatical category), generate_mor_tag returns "neg-": the grammatical
string is appended as a last "-"-joined element even when empty. -/
theorem c6_counterexample :
    generate_mor_tag tok_nehezky = some "neg-" ∧
      strEndsWith "neg-" "-" = true := by
  refine ⟨by decide, by decide⟩

/-- C6 (amended): generate_mor_tag serializes the grammatical categories
present joined with "&" in the fixed order form-type, case, person,
number, mood, tense, voice, gender, aspect, and the lexical categories
joined with "-" in the order comparison-degree, negation, always with
the grammatical-category string as the last element — also when that
string is empty, in which case a lexical category present leaves a
trailing "-". -/
theorem c6_serialization (token : Token) (lx gr : PyDict)
    (h : morCategories token = some (lx, gr)) :
    generate_mor_tag token = some (mor_serialize_spec lx gr) ∧
      (LEXICAL_CATEGORY_ORDER.filterMap (fun c => dget lx c) ≠ [] →
        GRAMMATICAL_CATEGORY_ORDER.filterMap (fun c => dget gr c) = [] →
        generate_mor_tag token =
          some (joinSep "-"
            (LEXICAL_CATEGORY_ORDER.filterMap (fun c => dget lx c)) ++ "-")) := by
  constructor
  · unfold generate_mor_tag
    rw [h]
    rfl
  · intro hlex hgr
    unfold generate_mor_tag
    rw [h]
    simp only [Option.map_some']
    rw [hgr]
    rw [show joinSep "&" ([] : List String) = "" from rfl]
    rw [joinSep_append_empty "-"
      (LEXICAL_CATEGORY_ORDER.filterMap (fun c => dget lx c)) hlex]

/-- C6 (witness): the negated adverb token. -/
theorem c6_witness :
    morCategories tok_nehezky = some ([(cats.negation, "neg")], []) ∧
      generate_mor_tag tok_nehezky =
        some (mor_serialize_spec [(cats.negation, "neg")] []) :=
  ⟨by decide,
   (c6_serialization tok_nehezky [(cats.negation, "neg")] [] (by decide)).1⟩

/-- C7 (counterexample): the claim says normalization returns None for a
header line with no error; chat_to_plain_text applied to the header line
"@x" instead raises ChatToPlainTextConversionError. -/
theorem c7_counterexample :
    strStartsWith "@x" "@" = true ∧
      chat_to_plain_text 3 "@x" = ChatResult.convError "@x" "@x" := by
  refine ⟨by decide, by decide⟩

/-- C7 (amended): for empty input chat_to_plain_text returns None with
no error; header/dependent-tier lines are filtered before normalization:
process_line emits only the echoed line for a line whose stripped form
starts with "@" or "%" and never calls the normalizer on it. -/
theorem c7_empty_none_header_echo :
    (∀ f : Nat, chat_to_plain_text f "" = ChatResult.noneRes) ∧
      (∀ (T : TokenizerF) (K : TaggerF) (g : Bool) (f : Nat) (line : String),
        strStartsWith (pyStrip [' ', '\n'] line) "@" = true ∨
          strStartsWith (pyStrip [' ', '\n'] line) "%" = true →
        process_line T K g f line = ([pyStrip [' ', '\n'] line], none)) := by
  constructor
  · intro f
    unfold chat_to_plain_text
    rw [if_pos rfl]
  · intro T K g f line h
    unfold process_line
    have hcond : (strStartsWith (pyStrip [' ', '\n'] line) "@" ||
        strStartsWith (pyStrip [' ', '\n'] line) "%") = true := by
      rcases h with h | h <;> simp [h]
    rw [if_pos hcond]

/-- C7 (witness): the header line "@Begin" and the empty line. -/
theorem c7_witness :
    process_line emptyTokenizer emptyTagger false 3 "@Begin" =
        ([pyStrip [' ', '\n'] "@Begin"], none) ∧
      chat_to_plain_text 3 "" = ChatResult.noneRes :=
  ⟨c7_empty_none_header_echo.2 emptyTokenizer emptyTagger false 3 "@Begin"
     (by decide),
   c7_empty_none_header_echo.1 3⟩

/-- C8: in the generic branch of construct_mor_word (POS label not the
punctuation label, no flags, no full-word override), the MorfFlex-lemma
substitution applies, a word-form-level lemma override takes precedence
over it, and the result is pos_label ++ "|" ++ lemma with "-" ++
categories appended only when the category string is non-empty. -/
theorem c8_generic_composition (token : FlaggedToken) (pl : PosResult)
    (hpos : generate_mor_pos_label token = some pl)
    (hZ : pl ≠ PosResult.label "Z")
    (hint : tflag.interjection ∉ token.flags)
    (hneo : tflag.neologism ∉ token.flags)
    (hfor : tflag.foreign ∉ token.flags)
    (hover : alookup MOR_WORDS_OVERRIDES token.word = none) :
    construct_mor_word token =
      (generate_mor_tag token.toToken).map (fun cs =>
        posStr pl ++ "|" ++ mor_lemma_spec token ++
          (if cs = "" then "" else "-" ++ cs)) := by
  unfold construct_mor_word
  rw [hpos]
  simp only [Option.pure_def, Option.bind_eq_bind, Option.some_bind]
  rw [if_neg hZ, if_neg hint, if_neg hneo, if_neg hfor]
  simp only [hover]
  cases htag : generate_mor_tag token.toToken with
  | none => simp [htag]
  | some cs =>
    simp only [htag, Option.pure_def, Option.bind_eq_bind,
      Option.some_bind, Option.map_some']
    unfold mor_lemma_spec
    cases hw : alookup MOR_WORDS_LEMMA_OVERRIDES token.word with
    | some l =>
      simp only [hw]
      by_cases hcs : cs = "" <;> simp [hcs]
    | none =>
      cases hm : alookup MOR_MLEMMAS_LEMMA_OVERRIDES token.«lemma» with
      | some l =>
        simp only [hw, hm, if_neg hneo]
        by_cases hcs : cs = "" <;> simp [hcs]
      | none =>
        simp only [hw, hm, if_neg hneo]
        by_cases hcs : cs = "" <;> simp [hcs]

/-- C8 (witness): the token lidé (MorfFlex lemma lidé overridden to
člověk). -/
theorem c8_witness :
    generate_mor_pos_label tok_lide = some (PosResult.label "n") ∧
      alookup MOR_WORDS_OVERRIDES tok_lide.word = none ∧
      construct_mor_word tok_lide =
        (generate_mor_tag tok_lide.toToken).map (fun cs =>
          posStr (PosResult.label "n") ++ "|" ++ mor_lemma_spec tok_lide ++
            (if cs = "" then "" else "-" ++ cs)) :=
  ⟨by decide, by decide,
   c8_generic_composition tok_lide (PosResult.label "n") (by decide)
     (by decide) (by decide) (by decide) (by decide) (by decide)⟩

/-- C9 (counterexample): the claim says the first output preserves the
line except for trailing newline/space stripping.  For the line " a."
(with a leading space and no trailing whitespace), the first output is
"a.": the leading space is stripped as well. -/
theorem c9_counterexample :
    (process_line emptyTokenizer emptyTagger false 3 " a.").1.head? =
        some "a." ∧
      (" a." : String) ≠ "a." := by
  refine ⟨by decide, by decide⟩

/-- C9 (amended): for every raw input line, the first output emitted by
process_line is the original line stripped of leading and trailing
space/newline characters (Python str.strip strips both ends). -/
theorem c9_first_output_is_stripped_line (T : TokenizerF) (K : TaggerF)
    (g : Bool) (f : Nat) (line : String) :
    (process_line T K g f line).1.head? =
      some (pyStrip [' ', '\n'] line) := by
  unfold process_line
  dsimp only
  split
  · rfl
  · split <;> try rfl
    split
    · split <;> rfl
    · rfl

/-- C10: the module-level integrity check of replacement_rules.py
passes on the shipped MOR_POS_OVERRIDES table, a table passes the check
exactly when every lemma entry contains the word-form key "_", and
consequently the default lookup succeeds for every lemma of the loaded
table. -/
theorem c10_default_key_invariant :
    mor_pos_overrides_check MOR_POS_OVERRIDES = true ∧
      (∀ d : List (String × List (String × String)),
        mor_pos_overrides_check d = true ↔
          ∀ kv ∈ d, (alookup kv.2 "_").isSome) ∧
      (∀ (lem : String) (e : List (String × String)),
        alookup MOR_POS_OVERRIDES lem = some e →
          (alookup e "_").isSome) := by
  refine ⟨by decide, ?_, ?_⟩
  · intro d
    unfold mor_pos_overrides_check
    rw [List.all_eq_true]
  · intro lem e he
    have hmem := alookup_mem MOR_POS_OVERRIDES lem e he
    have hall : mor_pos_overrides_check MOR_POS_OVERRIDES = true := by decide
    unfold mor_pos_overrides_check at hall
    rw [List.all_eq_true] at hall
    simpa using hall (lem, e) hmem

/-- C10 (witness): the copula lemma. -/
theorem c10_witness :
    alookup MOR_POS_OVERRIDES "být" = some mor_pos_overrides_byt ∧
      (alookup mor_pos_overrides_byt "_").isSome :=
  ⟨by decide,
   c10_default_key_invariant.2.2 "být" mor_pos_overrides_byt (by decide)⟩

end CoCzeFLA
